import Mathlib

/-!
Verification of the configuration surface of the AD9361 driver stack
(`app_config.h`) and of the configuration-resolution model specified for it.

Two layers are embedded:

1. `preprocess` — a direct embedding of the preprocessor behaviour of
   `src/fmcomms2_zc706.sdk/ad9361/src/src/app_config.h`: the macro values that
   result from including the header, as a function of the externally
   predefined macros its conditionals test.

2. `resolve` — the configuration resolver. The repository contains only the
   header (the declarations); the resolver itself is not present as code, so
   it is modelled from the specification's words.
-/

/-- External build inputs relevant to `app_config.h`: whether the macros its
conditionals test (`WINDOWS_PLATFORM` in the platform guard, `IIO_SUPPORT`
in the message guard) are predefined, and any externally requested values
for `HAVE_SPLIT_GAIN_TABLE` / `HAVE_TDD_SYNTH_TABLE`, which the header
defines unconditionally. -/
structure ExternalDefines where
  windows_platform : Bool
  iio_support : Bool
  requested_split_gain_table : Bool
  requested_tdd_synth_table : Bool
deriving DecidableEq

/-- The macro environment after preprocessing `app_config.h`: valued macros
carry their numeric value, flag macros record whether they end up defined. -/
structure AppConfig where
  have_split_gain_table : Nat
  have_tdd_synth_table : Nat
  ad9361_device : Nat
  ad9364_device : Nat
  ad9363a_device : Nat
  windows_platform : Bool
  xilinx_platform : Bool
  altera_platform : Bool
  linux_platform : Bool
  adc_dma_example : Bool
  dac_dma_example : Bool
  adc_dma_irq_example : Bool
  axi_adc_not_present : Bool
  tdd_switch_state_example : Bool
  iio_support : Bool
  have_verbose_messages : Bool
  have_debug_messages : Bool
deriving DecidableEq

/-- Direct embedding of `app_config.h`:
`HAVE_SPLIT_GAIN_TABLE` and `HAVE_TDD_SYNTH_TABLE` are defined to `0`
unconditionally (lines 43-44), the device variants to `1`/`0`/`0`
(lines 46-48); `XILINX_PLATFORM` is defined iff `WINDOWS_PLATFORM` is not
(lines 51-55, with `ALTERA_PLATFORM` / `LINUX_PLATFORM` commented out);
`ADC_DMA_EXAMPLE` is defined, the other feature flags are commented out;
`HAVE_VERBOSE_MESSAGES` is defined iff `IIO_SUPPORT` is not, and
`HAVE_DEBUG_MESSAGES` is commented out (lines 67-72). -/
def preprocess (ext : ExternalDefines) : AppConfig :=
  { have_split_gain_table := 0
    have_tdd_synth_table := 0
    ad9361_device := 1
    ad9364_device := 0
    ad9363a_device := 0
    windows_platform := ext.windows_platform
    xilinx_platform := !ext.windows_platform
    altera_platform := false
    linux_platform := false
    adc_dma_example := true
    dac_dma_example := false
    adc_dma_irq_example := false
    axi_adc_not_present := false
    tdd_switch_state_example := false
    iio_support := ext.iio_support
    have_verbose_messages := !ext.iio_support
    have_debug_messages := false }

/-- Modelled from the spec: the device-variant enum-selection group
(the resolver itself is not in the repository sources). -/
inductive DeviceVariant
  | ad9361
  | ad9364
  | ad9363a
deriving DecidableEq

/-- Modelled from the spec: the platform enum-selection group. -/
inductive Platform
  | windows
  | xilinx
  | altera
  | linux
deriving DecidableEq

/-- Modelled from the spec: the boolean feature toggles of the input surface. -/
inductive Feature
  | splitGainTable
  | tddSynthTable
  | adcDmaPolling
  | dacDma
  | adcDmaInterrupt
  | adcDmaNotPresent
  | tddSwitchState
  | iioSupport
  | verboseMessages
  | debugMessages
deriving DecidableEq

/-- Modelled from the spec: the resolver's input surface, a mapping from
option identifiers (string keys matching the macro names) to requested
boolean values. -/
abbrev RequestedOptions : Type := List (String × Bool)

/-- Modelled from the spec: the two error kinds of the resolver. -/
inductive ConfigError
  | exclusivityViolation (group : String)
  | unknownOption (name : String)
deriving DecidableEq

/-- Modelled from the spec: the resolved, immutable snapshot — one chosen
device variant, one chosen platform, and the final truth value of every
declared boolean toggle after dependency resolution. -/
structure EffectiveConfiguration where
  device : DeviceVariant
  platform : Platform
  splitGainTable : Bool
  tddSynthTable : Bool
  adcDmaPolling : Bool
  dacDma : Bool
  adcDmaInterrupt : Bool
  adcDmaNotPresent : Bool
  tddSwitchState : Bool
  iioSupport : Bool
  verboseMessages : Bool
  debugMessages : Bool
deriving DecidableEq

/-- The requested value of an option, `false` when absent from the map. -/
def getOpt (req : RequestedOptions) (name : String) : Bool :=
  match List.lookup name req with
  | some b => b
  | none => false

/-- Number of options in `names` requested `true`. -/
def countTrue (req : RequestedOptions) (names : List String) : Nat :=
  List.count true (names.map (fun n => getOpt req n))

/-- The device-variant option names (exclusive group). -/
def deviceOptions : List String :=
  ["AD9361_DEVICE", "AD9364_DEVICE", "AD9363A_DEVICE"]

/-- The platform option names (exclusive group). -/
def platformOptions : List String :=
  ["WINDOWS_PLATFORM", "XILINX_PLATFORM", "ALTERA_PLATFORM", "LINUX_PLATFORM"]

/-- The ADC transfer-mode option names (exclusive group). -/
def adcModeOptions : List String :=
  ["ADC_DMA_EXAMPLE", "ADC_DMA_IRQ_EXAMPLE", "AXI_ADC_NOT_PRESENT"]

/-- The full recognized option-name set of the input surface. -/
def recognizedOptions : List String :=
  deviceOptions ++ platformOptions ++
    ["HAVE_SPLIT_GAIN_TABLE", "HAVE_TDD_SYNTH_TABLE"] ++ adcModeOptions ++
    ["DAC_DMA_EXAMPLE", "TDD_SWITCH_STATE_EXAMPLE", "IIO_SUPPORT",
     "HAVE_VERBOSE_MESSAGES", "HAVE_DEBUG_MESSAGES"]

/-- Modelled from the spec: effective value of `VerboseMessages` — its
prerequisite is IIO support disabled, so it is forced off when
`IIO_SUPPORT` resolves true. -/
def effVerbose (req : RequestedOptions) : Bool :=
  getOpt req "HAVE_VERBOSE_MESSAGES" && !(getOpt req "IIO_SUPPORT")

/-- Modelled from the spec: effective value of `DebugMessages` — its
prerequisites are IIO support disabled and verbose messages enabled,
evaluated against already-resolved values. -/
def effDebug (req : RequestedOptions) : Bool :=
  getOpt req "HAVE_DEBUG_MESSAGES" && !(getOpt req "IIO_SUPPORT") && effVerbose req

/-- Modelled from the spec: the chosen device variant, once the exclusivity
check has ensured exactly one member of the group is requested true. -/
def chosenDevice (req : RequestedOptions) : DeviceVariant :=
  if getOpt req "AD9361_DEVICE" then DeviceVariant.ad9361
  else if getOpt req "AD9364_DEVICE" then DeviceVariant.ad9364
  else DeviceVariant.ad9363a

/-- Modelled from the spec: the chosen platform, once the exclusivity check
has ensured exactly one member of the group is requested true. -/
def chosenPlatform (req : RequestedOptions) : Platform :=
  if getOpt req "WINDOWS_PLATFORM" then Platform.windows
  else if getOpt req "XILINX_PLATFORM" then Platform.xilinx
  else if getOpt req "ALTERA_PLATFORM" then Platform.altera
  else Platform.linux

/-- Modelled from the spec: the reduce step — toggles with no dependency
pass through unchanged, dependent toggles are resolved against their
prerequisites. -/
def mkEffective (req : RequestedOptions) : EffectiveConfiguration :=
  { device := chosenDevice req
    platform := chosenPlatform req
    splitGainTable := getOpt req "HAVE_SPLIT_GAIN_TABLE"
    tddSynthTable := getOpt req "HAVE_TDD_SYNTH_TABLE"
    adcDmaPolling := getOpt req "ADC_DMA_EXAMPLE"
    dacDma := getOpt req "DAC_DMA_EXAMPLE"
    adcDmaInterrupt := getOpt req "ADC_DMA_IRQ_EXAMPLE"
    adcDmaNotPresent := getOpt req "AXI_ADC_NOT_PRESENT"
    tddSwitchState := getOpt req "TDD_SWITCH_STATE_EXAMPLE"
    iioSupport := getOpt req "IIO_SUPPORT"
    verboseMessages := effVerbose req
    debugMessages := effDebug req }

/-- Modelled from the spec: `resolve(requested) -> EffectiveConfiguration |
ConfigError`. Unrecognized names are rejected with `UnknownOption`; each
exclusive group must have exactly one member requested true, else
`ExclusivityViolation`; then the validate-and-reduce step produces the
effective configuration. -/
def resolve (req : RequestedOptions) : Except ConfigError EffectiveConfiguration :=
  match List.find? (fun p => !(recognizedOptions.contains p.1)) req with
  | some p => Except.error (ConfigError.unknownOption p.1)
  | none =>
    if countTrue req deviceOptions ≠ 1 then
      Except.error (ConfigError.exclusivityViolation "device variant")
    else if countTrue req platformOptions ≠ 1 then
      Except.error (ConfigError.exclusivityViolation "platform")
    else if countTrue req adcModeOptions ≠ 1 then
      Except.error (ConfigError.exclusivityViolation "ADC transfer mode")
    else
      Except.ok (mkEffective req)

/-- Read-only query: is `d` the chosen device variant. -/
def isDeviceVariant (c : EffectiveConfiguration) (d : DeviceVariant) : Bool :=
  c.device == d

/-- Read-only query: is `p` the chosen platform. -/
def isPlatform (c : EffectiveConfiguration) (p : Platform) : Bool :=
  c.platform == p

/-- Read-only query: final truth value of a feature toggle. -/
def isFeatureEnabled (c : EffectiveConfiguration) (f : Feature) : Bool :=
  match f with
  | Feature.splitGainTable => c.splitGainTable
  | Feature.tddSynthTable => c.tddSynthTable
  | Feature.adcDmaPolling => c.adcDmaPolling
  | Feature.dacDma => c.dacDma
  | Feature.adcDmaInterrupt => c.adcDmaInterrupt
  | Feature.adcDmaNotPresent => c.adcDmaNotPresent
  | Feature.tddSwitchState => c.tddSwitchState
  | Feature.iioSupport => c.iioSupport
  | Feature.verboseMessages => c.verboseMessages
  | Feature.debugMessages => c.debugMessages

/-- Number of device-variant queries answering true on a configuration. -/
def deviceTrueCount (c : EffectiveConfiguration) : Nat :=
  List.count true
    [isDeviceVariant c DeviceVariant.ad9361,
     isDeviceVariant c DeviceVariant.ad9364,
     isDeviceVariant c DeviceVariant.ad9363a]

/-- Number of platform queries answering true on a configuration. -/
def platformTrueCount (c : EffectiveConfiguration) : Nat :=
  List.count true
    [isPlatform c Platform.windows, isPlatform c Platform.xilinx,
     isPlatform c Platform.altera, isPlatform c Platform.linux]

/-- Number of ADC transfer-mode toggles answering true on a configuration. -/
def adcModeTrueCount (c : EffectiveConfiguration) : Nat :=
  List.count true
    [isFeatureEnabled c Feature.adcDmaPolling,
     isFeatureEnabled c Feature.adcDmaInterrupt,
     isFeatureEnabled c Feature.adcDmaNotPresent]

theorem deviceTrueCount_eq_one (c : EffectiveConfiguration) :
    deviceTrueCount c = 1 := by
  cases hd : c.device <;>
    simp [deviceTrueCount, isDeviceVariant, hd]

theorem platformTrueCount_eq_one (c : EffectiveConfiguration) :
    platformTrueCount c = 1 := by
  cases hp : c.platform <;>
    simp [platformTrueCount, isPlatform, hp]

theorem resolve_ok_eq (req : RequestedOptions) (c : EffectiveConfiguration)
    (h : resolve req = Except.ok c) : c = mkEffective req := by
  unfold resolve at h
  split at h
  · exact absurd h (by simp)
  · split at h
    · exact absurd h (by simp)
    · split at h
      · exact absurd h (by simp)
      · split at h
        · exact absurd h (by simp)
        · injection h with h2
          exact h2.symm

theorem resolve_ok_adc_count (req : RequestedOptions) (c : EffectiveConfiguration)
    (h : resolve req = Except.ok c) : countTrue req adcModeOptions = 1 := by
  unfold resolve at h
  split at h
  · exact absurd h (by simp)
  · split at h
    · exact absurd h (by simp)
    · split at h
      · exact absurd h (by simp)
      · split at h
        · exact absurd h (by simp)
        · next h3 => exact not_not.mp h3

theorem resolve_excl_of_bad_counts (req : RequestedOptions)
    (hrec : List.find? (fun p => !(recognizedOptions.contains p.1)) req = none)
    (hbad : countTrue req deviceOptions ≠ 1 ∨ countTrue req platformOptions ≠ 1 ∨
      countTrue req adcModeOptions ≠ 1) :
    ∃ g, resolve req = Except.error (ConfigError.exclusivityViolation g) := by
  unfold resolve
  rw [hrec]
  by_cases h1 : countTrue req deviceOptions = 1
  · by_cases h2 : countTrue req platformOptions = 1
    · by_cases h3 : countTrue req adcModeOptions = 1
      · rcases hbad with h | h | h <;> contradiction
      · exact ⟨"ADC transfer mode", by simp [h1, h2, h3]⟩
    · exact ⟨"platform", by simp [h1, h2]⟩
  · exact ⟨"device variant", by simp [h1]⟩

/-- Concrete well-formed request used by several witnesses. -/
def reqC1ok : RequestedOptions :=
  [("AD9363A_DEVICE", true), ("ALTERA_PLATFORM", true), ("AXI_ADC_NOT_PRESENT", true)]

/-- Concrete request naming two device variants. -/
def reqTwoDevices : RequestedOptions :=
  [("AD9361_DEVICE", true), ("AD9364_DEVICE", true), ("XILINX_PLATFORM", true),
   ("ADC_DMA_EXAMPLE", true)]

example : resolve reqC1ok = Except.ok (mkEffective reqC1ok) := rfl
example : resolve reqTwoDevices =
    Except.error (ConfigError.exclusivityViolation "device variant") := rfl

/-- Claim C1: for every input, a successfully resolved EffectiveConfiguration
has exactly one true device variant and exactly one true platform, and an
input (over recognized names) whose device-variant or platform group does not
have exactly one member requested true fails with an ExclusivityViolation. -/
theorem c1_device_platform_exclusive (req : RequestedOptions) :
    (∀ c, resolve req = Except.ok c →
      deviceTrueCount c = 1 ∧ platformTrueCount c = 1) ∧
    (List.find? (fun p => !(recognizedOptions.contains p.1)) req = none →
      countTrue req deviceOptions ≠ 1 ∨ countTrue req platformOptions ≠ 1 →
      ∃ g, resolve req = Except.error (ConfigError.exclusivityViolation g)) := by
  constructor
  · intro c _
    exact ⟨deviceTrueCount_eq_one c, platformTrueCount_eq_one c⟩
  · intro hrec hbad
    refine resolve_excl_of_bad_counts req hrec ?_
    rcases hbad with h | h
    · exact Or.inl h
    · exact Or.inr (Or.inl h)

/-- Witness for C1 at concrete inputs: a well-formed request resolves with
exactly one device and platform, and a two-device request fails with an
ExclusivityViolation. -/
theorem c1_witness :
    (deviceTrueCount (mkEffective reqC1ok) = 1 ∧
      platformTrueCount (mkEffective reqC1ok) = 1) ∧
    ∃ g, resolve reqTwoDevices = Except.error (ConfigError.exclusivityViolation g) :=
  ⟨(c1_device_platform_exclusive reqC1ok).1 (mkEffective reqC1ok) (by rfl),
   (c1_device_platform_exclusive reqTwoDevices).2 (by rfl) (Or.inl (by decide))⟩

/-- Claim C2: if IIO support is requested true, both verbose and debug
messages are false in the effective configuration, regardless of their
requested values. -/
theorem c2_iio_forces_quiet (req : RequestedOptions) (c : EffectiveConfiguration)
    (hiio : getOpt req "IIO_SUPPORT" = true) (h : resolve req = Except.ok c) :
    isFeatureEnabled c Feature.verboseMessages = false ∧
    isFeatureEnabled c Feature.debugMessages = false := by
  have hc := resolve_ok_eq req c h
  subst hc
  simp [mkEffective, isFeatureEnabled, effVerbose, effDebug, hiio]

/-- Concrete request with IIO support on and both message toggles requested. -/
def reqIio : RequestedOptions :=
  [("AD9361_DEVICE", true), ("XILINX_PLATFORM", true), ("ADC_DMA_EXAMPLE", true),
   ("IIO_SUPPORT", true), ("HAVE_VERBOSE_MESSAGES", true),
   ("HAVE_DEBUG_MESSAGES", true)]

/-- Witness for C2 at a concrete input requesting IIO support together with
verbose and debug messages. -/
theorem c2_witness :
    isFeatureEnabled (mkEffective reqIio) Feature.verboseMessages = false ∧
    isFeatureEnabled (mkEffective reqIio) Feature.debugMessages = false :=
  c2_iio_forces_quiet reqIio (mkEffective reqIio) (by rfl) (by rfl)

/-- Claim C3: whenever verbose messages resolve to false, debug messages are
false in the effective configuration, even if requested true. -/
theorem c3_debug_requires_verbose (req : RequestedOptions) (c : EffectiveConfiguration)
    (h : resolve req = Except.ok c)
    (hv : isFeatureEnabled c Feature.verboseMessages = false) :
    isFeatureEnabled c Feature.debugMessages = false := by
  have hc := resolve_ok_eq req c h
  subst hc
  simp only [isFeatureEnabled, mkEffective] at hv ⊢
  simp [effDebug, hv]

/-- Concrete request with debug messages requested but verbose absent. -/
def reqNoVerbose : RequestedOptions :=
  [("AD9364_DEVICE", true), ("LINUX_PLATFORM", true), ("ADC_DMA_IRQ_EXAMPLE", true),
   ("HAVE_DEBUG_MESSAGES", true)]

/-- Witness for C3 at a concrete input requesting debug messages while
verbose messages resolve false. -/
theorem c3_witness :
    isFeatureEnabled (mkEffective reqNoVerbose) Feature.debugMessages = false :=
  c3_debug_requires_verbose reqNoVerbose (mkEffective reqNoVerbose) (by rfl) (by rfl)

/-- Claim C4: the ADC transfer-mode group is exclusive — a successfully
resolved configuration never has more than one of DMA-polling,
DMA-interrupt, DMA-not-present true, and an input (over recognized names)
requesting zero or multiple of them true fails with an
ExclusivityViolation. -/
theorem c4_adc_mode_exclusive (req : RequestedOptions) :
    (∀ c, resolve req = Except.ok c → adcModeTrueCount c ≤ 1) ∧
    (List.find? (fun p => !(recognizedOptions.contains p.1)) req = none →
      countTrue req adcModeOptions ≠ 1 →
      ∃ g, resolve req = Except.error (ConfigError.exclusivityViolation g)) := by
  constructor
  · intro c h
    have h1 := resolve_ok_adc_count req c h
    have hc := resolve_ok_eq req c h
    subst hc
    have h2 : adcModeTrueCount (mkEffective req) = countTrue req adcModeOptions := by
      simp [adcModeTrueCount, countTrue, adcModeOptions, isFeatureEnabled, mkEffective]
    rw [h2, h1]
  · intro hrec hbad
    exact resolve_excl_of_bad_counts req hrec (Or.inr (Or.inr hbad))

/-- Concrete request with zero ADC transfer modes requested. -/
def reqZeroAdc : RequestedOptions :=
  [("AD9361_DEVICE", true), ("XILINX_PLATFORM", true)]

/-- Witness for C4 at concrete inputs: a well-formed request has at most one
ADC mode true, and a request with zero ADC modes fails with an
ExclusivityViolation. -/
theorem c4_witness :
    adcModeTrueCount (mkEffective reqC1ok) ≤ 1 ∧
    ∃ g, resolve reqZeroAdc = Except.error (ConfigError.exclusivityViolation g) :=
  ⟨(c4_adc_mode_exclusive reqC1ok).1 (mkEffective reqC1ok) (by rfl),
   (c4_adc_mode_exclusive reqZeroAdc).2 (by rfl) (by decide)⟩

/-- Claim C5: resolution is deterministic and idempotent — resolving the same
input twice yields equal results, and two successful resolutions of the same
input yield equal EffectiveConfiguration values (resolve is a pure function
of its input). -/
theorem c5_deterministic_idempotent (req : RequestedOptions) :
    resolve req = resolve req ∧
    ∀ c c', resolve req = Except.ok c → resolve req = Except.ok c' → c = c' := by
  refine ⟨rfl, ?_⟩
  intro c c' h h'
  rw [h] at h'
  exact Except.ok.inj h'

/-- Witness for C5 at a concrete input: the two calls agree and the two
successful results are equal. -/
theorem c5_witness :
    resolve reqC1ok = resolve reqC1ok ∧
    mkEffective reqC1ok = mkEffective reqC1ok :=
  ⟨(c5_deterministic_idempotent reqC1ok).1,
   (c5_deterministic_idempotent reqC1ok).2 (mkEffective reqC1ok)
     (mkEffective reqC1ok) (by rfl) (by rfl)⟩

/-- Claim C6: an input containing an option name outside the recognized set
fails with UnknownOption, and the failure is terminal — no
EffectiveConfiguration is produced. -/
theorem c6_unknown_option_terminal (req : RequestedOptions) (name : String) (b : Bool)
    (hmem : (name, b) ∈ req) (hunk : recognizedOptions.contains name = false) :
    (∃ n, resolve req = Except.error (ConfigError.unknownOption n)) ∧
    ∀ c, resolve req ≠ Except.ok c := by
  cases hf : List.find? (fun p => !(recognizedOptions.contains p.1)) req with
  | none =>
    exfalso
    have hall := List.find?_eq_none.mp hf (name, b) hmem
    simp at hall
    have hcon : recognizedOptions.contains name = true := by simpa using hall
    rw [hunk] at hcon
    exact Bool.false_ne_true hcon
  | some p =>
    have hres : resolve req = Except.error (ConfigError.unknownOption p.1) := by
      unfold resolve
      rw [hf]
    refine ⟨⟨p.1, hres⟩, ?_⟩
    intro c hc
    rw [hres] at hc
    exact absurd hc (by simp)

/-- Concrete request containing an unrecognized option name. -/
def reqUnknown : RequestedOptions :=
  [("AD9361_DEVICE", true), ("BOGUS_OPTION", true)]

/-- Witness for C6 at a concrete input containing the unrecognized name
BOGUS_OPTION. -/
theorem c6_witness :
    (∃ n, resolve reqUnknown = Except.error (ConfigError.unknownOption n)) ∧
    ∀ c, resolve reqUnknown ≠ Except.ok c :=
  c6_unknown_option_terminal reqUnknown "BOGUS_OPTION" true (by decide) (by decide)

/-- Claim C7: dependency resolution only clears toggles, never sets them — a
dependent toggle is true in the effective configuration only if it was
requested true, it is forced false when its prerequisite is unmet, and every
toggle with no declared dependency carries exactly its requested value. -/
theorem c7_dependency_frame (req : RequestedOptions) (c : EffectiveConfiguration)
    (h : resolve req = Except.ok c) :
    (isFeatureEnabled c Feature.verboseMessages = true →
      getOpt req "HAVE_VERBOSE_MESSAGES" = true) ∧
    (isFeatureEnabled c Feature.debugMessages = true →
      getOpt req "HAVE_DEBUG_MESSAGES" = true) ∧
    (getOpt req "IIO_SUPPORT" = true →
      isFeatureEnabled c Feature.verboseMessages = false ∧
      isFeatureEnabled c Feature.debugMessages = false) ∧
    isFeatureEnabled c Feature.splitGainTable = getOpt req "HAVE_SPLIT_GAIN_TABLE" ∧
    isFeatureEnabled c Feature.tddSynthTable = getOpt req "HAVE_TDD_SYNTH_TABLE" ∧
    isFeatureEnabled c Feature.adcDmaPolling = getOpt req "ADC_DMA_EXAMPLE" ∧
    isFeatureEnabled c Feature.dacDma = getOpt req "DAC_DMA_EXAMPLE" ∧
    isFeatureEnabled c Feature.adcDmaInterrupt = getOpt req "ADC_DMA_IRQ_EXAMPLE" ∧
    isFeatureEnabled c Feature.adcDmaNotPresent = getOpt req "AXI_ADC_NOT_PRESENT" ∧
    isFeatureEnabled c Feature.tddSwitchState = getOpt req "TDD_SWITCH_STATE_EXAMPLE" ∧
    isFeatureEnabled c Feature.iioSupport = getOpt req "IIO_SUPPORT" := by
  have hc := resolve_ok_eq req c h
  subst hc
  simp only [isFeatureEnabled, mkEffective]
  refine ⟨?_, ?_, ?_, trivial, trivial, trivial, trivial, trivial, trivial,
    trivial, trivial⟩
  · intro hv
    unfold effVerbose at hv
    simp only [Bool.and_eq_true] at hv
    exact hv.1
  · intro hd
    unfold effDebug at hd
    simp only [Bool.and_eq_true] at hd
    exact hd.1.1
  · intro hiio
    constructor
    · simp [effVerbose, hiio]
    · simp [effDebug, hiio]

/-- Witness for C7 at a concrete well-formed input. -/
theorem c7_witness :
    (isFeatureEnabled (mkEffective reqC1ok) Feature.verboseMessages = true →
      getOpt reqC1ok "HAVE_VERBOSE_MESSAGES" = true) ∧
    (isFeatureEnabled (mkEffective reqC1ok) Feature.debugMessages = true →
      getOpt reqC1ok "HAVE_DEBUG_MESSAGES" = true) ∧
    (getOpt reqC1ok "IIO_SUPPORT" = true →
      isFeatureEnabled (mkEffective reqC1ok) Feature.verboseMessages = false ∧
      isFeatureEnabled (mkEffective reqC1ok) Feature.debugMessages = false) ∧
    isFeatureEnabled (mkEffective reqC1ok) Feature.splitGainTable =
      getOpt reqC1ok "HAVE_SPLIT_GAIN_TABLE" ∧
    isFeatureEnabled (mkEffective reqC1ok) Feature.tddSynthTable =
      getOpt reqC1ok "HAVE_TDD_SYNTH_TABLE" ∧
    isFeatureEnabled (mkEffective reqC1ok) Feature.adcDmaPolling =
      getOpt reqC1ok "ADC_DMA_EXAMPLE" ∧
    isFeatureEnabled (mkEffective reqC1ok) Feature.dacDma =
      getOpt reqC1ok "DAC_DMA_EXAMPLE" ∧
    isFeatureEnabled (mkEffective reqC1ok) Feature.adcDmaInterrupt =
      getOpt reqC1ok "ADC_DMA_IRQ_EXAMPLE" ∧
    isFeatureEnabled (mkEffective reqC1ok) Feature.adcDmaNotPresent =
      getOpt reqC1ok "AXI_ADC_NOT_PRESENT" ∧
    isFeatureEnabled (mkEffective reqC1ok) Feature.tddSwitchState =
      getOpt reqC1ok "TDD_SWITCH_STATE_EXAMPLE" ∧
    isFeatureEnabled (mkEffective reqC1ok) Feature.iioSupport =
      getOpt reqC1ok "IIO_SUPPORT" :=
  c7_dependency_frame reqC1ok (mkEffective reqC1ok) (by rfl)

/-- The example request of the specification: device AD9361, platform
Xilinx, IIO support off, verbose messages on, debug messages off, ADC
transfer mode DMA-polling. -/
def reqExample : RequestedOptions :=
  [("AD9361_DEVICE", true), ("AD9364_DEVICE", false), ("AD9363A_DEVICE", false),
   ("WINDOWS_PLATFORM", false), ("XILINX_PLATFORM", true),
   ("ALTERA_PLATFORM", false), ("LINUX_PLATFORM", false),
   ("IIO_SUPPORT", false), ("HAVE_VERBOSE_MESSAGES", true),
   ("HAVE_DEBUG_MESSAGES", false), ("ADC_DMA_EXAMPLE", true),
   ("ADC_DMA_IRQ_EXAMPLE", false), ("AXI_ADC_NOT_PRESENT", false)]

/-- Claim C8: the specification's example input resolves successfully to a
configuration with device AD9361, platform Xilinx, verbose messages on and
debug messages off. -/
theorem c8_example_input :
    ∃ c, resolve reqExample = Except.ok c ∧
      isDeviceVariant c DeviceVariant.ad9361 = true ∧
      isPlatform c Platform.xilinx = true ∧
      isFeatureEnabled c Feature.verboseMessages = true ∧
      isFeatureEnabled c Feature.debugMessages = false :=
  ⟨mkEffective reqExample, rfl, rfl, rfl, rfl, rfl⟩

/-- Claim C9: in `app_config.h`, the Windows platform request takes
precedence and Xilinx is the default — `XILINX_PLATFORM` ends up defined
exactly when `WINDOWS_PLATFORM` is not predefined, so the two are never both
active and at least one is always active. -/
theorem c9_platform_default (ext : ExternalDefines) :
    ((preprocess ext).windows_platform && (preprocess ext).xilinx_platform) = false ∧
    ((preprocess ext).windows_platform || (preprocess ext).xilinx_platform) = true ∧
    (preprocess ext).windows_platform = ext.windows_platform ∧
    (preprocess ext).xilinx_platform = !ext.windows_platform := by
  cases ext with
  | mk w i sg ts => cases w <;> simp [preprocess]

/-- Claim C10: `HAVE_SPLIT_GAIN_TABLE` and `HAVE_TDD_SYNTH_TABLE` are
hard-wired to 0 by `app_config.h`, independent of any externally requested
value. -/
theorem c10_hardwired_tables (ext : ExternalDefines) :
    (preprocess ext).have_split_gain_table = 0 ∧
    (preprocess ext).have_tdd_synth_table = 0 :=
  ⟨rfl, rfl⟩
